import Mathlib

/-!
Shallow embedding of the core of `svelte-tf-three-lib`: the collision
manager (`src/lib/3D/collision.js`), the event/drag manager
(`src/lib/3D/event.js`) and the entity registry (`src/lib/3D/entity.js`).

Objects (`THREE.Object3D` handles) are opaque and modelled as natural
numbers; per-object handler functions are modelled by presence flags (the
event manager) or opaque handler identities (the collision manager), and
each operation returns, besides its state effect, the list of handler
invocations it performs, in source order.  JavaScript `Map`s are
association lists with unique keys kept in insertion order, and `Set`s are
duplicate-free lists in insertion order.
-/

/-- Opaque handle standing for a `THREE.Object3D` instance. -/
abbrev Obj := Nat

/-- Opaque identity of a collision-handler function. -/
abbrev HId := Nat

/-- JavaScript `Map.get`: the value of the first (under the unique-key
invariant, only) entry with the given key. -/
def mapGet {K V : Type} [DecidableEq K] : List (K × V) → K → Option V
  | [], _ => none
  | p :: rest, k => if p.1 = k then some p.2 else mapGet rest k

/-- JavaScript `Map.set`: replace the value in place if the key is
present, otherwise append a new entry. -/
def mapSet {K V : Type} [DecidableEq K] : List (K × V) → K → V → List (K × V)
  | [], k, v => [(k, v)]
  | p :: rest, k, v => if p.1 = k then (k, v) :: rest else p :: mapSet rest k v

/-- JavaScript `Map.delete`: drop the entry with the given key. -/
def mapDelete {K V : Type} [DecidableEq K] : List (K × V) → K → List (K × V)
  | [], _ => []
  | p :: rest, k => if p.1 = k then mapDelete rest k else p :: mapDelete rest k

/-- JavaScript `Set.add`: append if absent, otherwise leave unchanged. -/
def setAdd {K : Type} [DecidableEq K] (l : List K) (k : K) : List K :=
  if k ∈ l then l else l ++ [k]

/-- JavaScript `Set.delete`: drop the element if present. -/
def setDelete {K : Type} [DecidableEq K] : List K → K → List K
  | [], _ => []
  | a :: rest, k => if a = k then setDelete rest k else a :: setDelete rest k

theorem mapGet_mapDelete_self {K V : Type} [DecidableEq K]
    (l : List (K × V)) (k : K) : mapGet (mapDelete l k) k = none := by
  induction l with
  | nil => rfl
  | cons p rest ih =>
      by_cases h : p.1 = k
      · simp [mapDelete, h, ih]
      · simp [mapDelete, mapGet, h, ih]

theorem not_mem_setDelete_self {K : Type} [DecidableEq K]
    (l : List K) (k : K) : k ∉ setDelete l k := by
  induction l with
  | nil => simp [setDelete]
  | cons a rest ih =>
      by_cases h : a = k
      · simpa [setDelete, h] using ih
      · simp [setDelete, h, ih]
        exact fun hak => absurd hak.symm h

theorem setDelete_of_not_mem {K : Type} [DecidableEq K]
    {l : List K} {k : K} (h : k ∉ l) : setDelete l k = l := by
  induction l with
  | nil => rfl
  | cons a rest ih =>
      have hak : a ≠ k := fun hc => h (hc ▸ List.mem_cons_self a rest)
      have hrest : k ∉ rest := fun hc => h (List.mem_cons_of_mem a hc)
      simp [setDelete, hak, ih hrest]

theorem mapGet_eq_none_iff {K V : Type} [DecidableEq K]
    {l : List (K × V)} {k : K} : mapGet l k = none ↔ ∀ p ∈ l, p.1 ≠ k := by
  induction l with
  | nil => simp [mapGet]
  | cons p rest ih =>
      by_cases h : p.1 = k
      · simp [mapGet, h]
      · simp [mapGet, h, ih]

theorem mapDelete_of_get_none {K V : Type} [DecidableEq K]
    {l : List (K × V)} {k : K} (h : mapGet l k = none) : mapDelete l k = l := by
  induction l with
  | nil => rfl
  | cons p rest ih =>
      rcases mapGet_eq_none_iff.mp h with hall
      have hp : p.1 ≠ k := hall p (List.mem_cons_self p rest)
      have hrest : mapGet rest k = none :=
        mapGet_eq_none_iff.mpr fun q hq => hall q (List.mem_cons_of_mem p hq)
      simp [mapDelete, hp, ih hrest]

/-! ## Axis-aligned bounding boxes

`THREE.Box3` with integer coordinates; `intersectsBox` transcribes
`Box3.intersectsBox` (three.js): six separating planes, a ternary
returning `false` when some plane separates. -/

structure Box3 where
  minx : Int
  miny : Int
  minz : Int
  maxx : Int
  maxy : Int
  maxz : Int
deriving DecidableEq, Repr

/-- The separating-plane disjunction tested by `Box3.intersectsBox`. -/
def boxSeparated (a b : Box3) : Prop :=
  b.maxx < a.minx ∨ b.minx > a.maxx ∨ b.maxy < a.miny ∨ b.miny > a.maxy ∨
    b.maxz < a.minz ∨ b.minz > a.maxz

instance boxSeparatedDec (a b : Box3) : Decidable (boxSeparated a b) := by
  unfold boxSeparated; infer_instance

/-- `THREE.Box3.intersectsBox`, called as `boxA.intersectsBox(boxB)`. -/
def intersectsBox (a b : Box3) : Bool :=
  if boxSeparated a b then false else true

theorem intersectsBox_comm (a b : Box3) : intersectsBox a b = intersectsBox b a := by
  unfold intersectsBox
  by_cases h1 : boxSeparated a b <;> by_cases h2 : boxSeparated b a <;>
    simp [h1, h2] <;> (unfold boxSeparated at *; omega)

/-! ## CollisionManager (`src/lib/3D/collision.js`) -/

/-- The mutable fields of `CollisionManager`: `this.objects` (a `Set`) and
`this.collisionHandlers` (a `Map` from object to its `onCollide`
function, modelled by an opaque handler identity). -/
structure CollisionManager where
  objects : List Obj
  collisionHandlers : List (Obj × HId)
deriving DecidableEq, Repr

/-- `addObject(object, options)`: add to the set; store the handler only
when `options.onCollide` is given. -/
def CollisionManager.addObject (st : CollisionManager) (o : Obj)
    (onCollide : Option HId) : CollisionManager :=
  { objects := setAdd st.objects o
    collisionHandlers :=
      match onCollide with
      | some h => mapSet st.collisionHandlers o h
      | none => st.collisionHandlers }

/-- `removeObject(object)`: delete from the set and the handler map. -/
def CollisionManager.removeObject (st : CollisionManager) (o : Obj) : CollisionManager :=
  { objects := setDelete st.objects o
    collisionHandlers := mapDelete st.collisionHandlers o }

/-- `isColliding(objA, objB)`: AABB test on the boxes computed from the
objects (`Box3.setFromObject`, abstracted by the `aabb` assignment). -/
def CollisionManager.isColliding (aabb : Obj → Box3) (a b : Obj) : Bool :=
  intersectsBox (aabb a) (aabb b)

/-- `handleCollision(objA, objB)`: look both objects up in the handler map
and invoke `handlerA(objA, objB)` then `handlerB(objB, objA)`, each when
present.  An invocation is recorded as (handler, self, other). -/
def CollisionManager.handleCollision (handlers : List (Obj × HId)) (a b : Obj) :
    List (HId × Obj × Obj) :=
  (match mapGet handlers a with
   | some h => [(h, a, b)]
   | none => []) ++
  (match mapGet handlers b with
   | some h => [(h, b, a)]
   | none => [])

/-- The nested index loop of `checkCollisions`: pair every list element
with every later element, testing `isColliding` and dispatching
`handleCollision` on success. -/
def CollisionManager.pairSweep (aabb : Obj → Box3) (handlers : List (Obj × HId)) :
    List Obj → List (HId × Obj × Obj)
  | [] => []
  | a :: rest =>
      (rest.flatMap fun b =>
        if CollisionManager.isColliding aabb a b then
          CollisionManager.handleCollision handlers a b
        else []) ++
      CollisionManager.pairSweep aabb handlers rest

/-- `checkCollisions()`: sweep over `Array.from(this.objects)`, the
snapshot of the tracked set taken at call time. -/
def CollisionManager.checkCollisions (aabb : Obj → Box3) (st : CollisionManager) :
    List (HId × Obj × Obj) :=
  CollisionManager.pairSweep aabb st.collisionHandlers st.objects

theorem mem_handleCollision {handlers : List (Obj × HId)} {a b : Obj} {h : HId} {X Y : Obj} :
    (h, X, Y) ∈ CollisionManager.handleCollision handlers a b ↔
      ((mapGet handlers a = some h ∧ X = a ∧ Y = b) ∨
        (mapGet handlers b = some h ∧ X = b ∧ Y = a)) := by
  unfold CollisionManager.handleCollision
  rcases hga : mapGet handlers a with _ | ha <;>
    rcases hgb : mapGet handlers b with _ | hb <;>
      simp [hga, hgb, Prod.ext_iff, eq_comm, and_comm]

theorem mem_pairSweep {aabb : Obj → Box3} {handlers : List (Obj × HId)}
    {l : List Obj} (hl : l.Nodup) {h : HId} {X Y : Obj} :
    (h, X, Y) ∈ CollisionManager.pairSweep aabb handlers l ↔
      (X ∈ l ∧ Y ∈ l ∧ X ≠ Y ∧ intersectsBox (aabb X) (aabb Y) = true ∧
        mapGet handlers X = some h) := by
  induction l with
  | nil => simp [CollisionManager.pairSweep]
  | cons a rest ih =>
      rcases List.nodup_cons.mp hl with ⟨hna, hnrest⟩
      simp only [CollisionManager.pairSweep]
      constructor
      · intro hmem
        rcases List.mem_append.mp hmem with hfst | hsnd
        · rcases List.mem_flatMap.mp hfst with ⟨b, hb, hfb⟩
          by_cases hc : CollisionManager.isColliding aabb a b = true
          · rw [if_pos hc] at hfb
            rcases mem_handleCollision.mp hfb with ⟨hga, hX, hY⟩ | ⟨hgb, hX, hY⟩
            · subst hX; subst hY
              refine ⟨List.mem_cons_self X rest, List.mem_cons_of_mem X hb,
                fun he => hna (by rw [he]; exact hb), hc, hga⟩
            · subst hX; subst hY
              refine ⟨List.mem_cons_of_mem Y hb, List.mem_cons_self Y rest,
                fun he => hna (by rw [← he]; exact hb), ?_, hgb⟩
              rw [intersectsBox_comm]; exact hc
          · rw [if_neg hc] at hfb; exact absurd hfb (List.not_mem_nil _)
        · rcases (ih hnrest).mp hsnd with ⟨hX, hY, hne, hint, hget⟩
          exact ⟨List.mem_cons_of_mem a hX, List.mem_cons_of_mem a hY, hne, hint, hget⟩
      · rintro ⟨hX, hY, hne, hint, hget⟩
        rcases List.mem_cons.mp hX with hXa | hXrest
        · subst hXa
          have hYrest : Y ∈ rest := by
            rcases List.mem_cons.mp hY with hYa | h2
            · exact absurd hYa.symm hne
            · exact h2
          refine List.mem_append.mpr (Or.inl (List.mem_flatMap.mpr ⟨Y, hYrest, ?_⟩))
          have hc : CollisionManager.isColliding aabb X Y = true := hint
          rw [if_pos hc]
          exact mem_handleCollision.mpr (Or.inl ⟨hget, rfl, rfl⟩)
        · rcases List.mem_cons.mp hY with hYa | hYrest
          · subst hYa
            refine List.mem_append.mpr (Or.inl (List.mem_flatMap.mpr ⟨X, hXrest, ?_⟩))
            have hc : CollisionManager.isColliding aabb Y X = true := by
              unfold CollisionManager.isColliding
              rw [intersectsBox_comm]; exact hint
            rw [if_pos hc]
            exact mem_handleCollision.mpr (Or.inr ⟨hget, rfl, rfl⟩)
          · exact List.mem_append.mpr
              (Or.inr ((ih hnrest).mpr ⟨hXrest, hYrest, hne, hint, hget⟩))

/-- C2: over the snapshot of the tracked set taken when `checkCollisions()`
starts (with set-unique membership), a handler invocation
(handler, self, other) is produced precisely for the unordered pairs of
distinct tracked objects whose AABBs intersect, invoking the self
object's handler on (self, other) exactly when that handler is present;
no invocation arises from a non-intersecting pair. -/
theorem checkCollisions_pair_spec (aabb : Obj → Box3) (st : CollisionManager)
    (hnd : st.objects.Nodup) (h : HId) (X Y : Obj) :
    (h, X, Y) ∈ CollisionManager.checkCollisions aabb st ↔
      (X ∈ st.objects ∧ Y ∈ st.objects ∧ X ≠ Y ∧
        intersectsBox (aabb X) (aabb Y) = true ∧
        mapGet st.collisionHandlers X = some h) :=
  mem_pairSweep hnd

def exAabbAll : Obj → Box3 := fun _ => ⟨0, 0, 0, 1, 1, 1⟩

def exCM : CollisionManager :=
  { objects := [0, 1], collisionHandlers := [(0, 7), (1, 9)] }

/-- Witness for C2 at a concrete two-object state whose boxes intersect. -/
theorem checkCollisions_pair_spec_witness :
    exCM.objects.Nodup ∧
      (7, 0, 1) ∈ CollisionManager.checkCollisions exAabbAll exCM :=
  ⟨by decide, (checkCollisions_pair_spec exAabbAll exCM (by decide) 7 0 1).mpr (by decide)⟩

/-- C9: adding an object and then removing it leaves it absent from both
the tracked set and the handler map, and `removeObject` on an object
absent from both is a no-op. -/
theorem cm_addRemove_spec (st : CollisionManager) (X : Obj) (opts : Option HId) :
    (X ∉ ((st.addObject X opts).removeObject X).objects ∧
      mapGet ((st.addObject X opts).removeObject X).collisionHandlers X = none) ∧
    (X ∉ st.objects → mapGet st.collisionHandlers X = none →
      CollisionManager.removeObject st X = st) := by
  refine ⟨⟨?_, ?_⟩, ?_⟩
  · exact not_mem_setDelete_self _ X
  · exact mapGet_mapDelete_self _ X
  · intro h1 h2
    unfold CollisionManager.removeObject
    rw [setDelete_of_not_mem h1, mapDelete_of_get_none h2]

def exCM2 : CollisionManager :=
  { objects := [3], collisionHandlers := [(3, 4)] }

/-- Witness for C9: the no-op case at a concrete state not containing 0,
via the claim theorem. -/
theorem cm_addRemove_spec_witness :
    ((0 : Obj) ∉ exCM2.objects ∧ mapGet exCM2.collisionHandlers 0 = none) ∧
      CollisionManager.removeObject exCM2 0 = exCM2 :=
  ⟨⟨by decide, by decide⟩, (cm_addRemove_spec exCM2 0 (some 5)).2 (by decide) (by decide)⟩

/-! ## Event/drag manager (`src/lib/3D/event.js`)

Handler functions are modelled by presence flags; an operation's effect on
the DOM world is its invocation trace.  The ray-intersection primitive
(`raycaster.intersectObjects` over the handler map's keys, hits ordered by
increasing distance) is abstracted by the `hits` list an event carries. -/

/-- Which handler slots an object's handler bundle fills. -/
structure HandlerBundle where
  onHover : Bool
  onClick : Bool
  onDragStart : Bool
  onDrag : Bool
  onDragEnd : Bool
deriving DecidableEq, Repr

/-- One handler invocation performed by the event manager. -/
inductive EMEvent where
  | hoverEv (o : Obj)
  | clickEv (o : Obj)
  | dragStartEv (o : Obj)
  | dragEv (o : Obj)
  | dragEndEv (o : Obj)
  | globalDragStartEv
  | globalDragEndEv
deriving DecidableEq, Repr

/-- The mutable fields of `EventManager`: the handler `Map`, the
`dragging` field (null or the dragged object) and which global drag
handlers have been installed. -/
structure EventManager where
  objectHandlers : List (Obj × HandlerBundle)
  dragging : Option Obj
  globalOnDragStart : Bool
  globalOnDragEnd : Bool
deriving DecidableEq, Repr

/-- The state built by the `EventManager` constructor: empty handler map,
`dragging = null`, no global handlers. -/
def EventManager.init : EventManager :=
  { objectHandlers := [], dragging := none
    globalOnDragStart := false, globalOnDragEnd := false }

/-- `addObject(object, handlers)`. -/
def EventManager.addObject (st : EventManager) (o : Obj) (handlers : HandlerBundle) :
    EventManager :=
  { st with objectHandlers := mapSet st.objectHandlers o handlers }

/-- `removeObject(object)`: only `this.objectHandlers.delete(object)`; the
`dragging` field is not touched. -/
def EventManager.removeObject (st : EventManager) (o : Obj) : EventManager :=
  { st with objectHandlers := mapDelete st.objectHandlers o }

/-- `EventManager.onPointerMove(event)`: while dragging, invoke the dragged
object's `onDrag` if still mapped; otherwise walk every raycast hit and
invoke its `onHover` when present. -/
def EventManager.onPointerMove (st : EventManager) (hits : List Obj) :
    EventManager × List EMEvent :=
  match st.dragging with
  | some d =>
      (st,
        match mapGet st.objectHandlers d with
        | some handlers => if handlers.onDrag then [EMEvent.dragEv d] else []
        | none => [])
  | none =>
      (st,
        hits.flatMap fun o =>
          match mapGet st.objectHandlers o with
          | some handlers => if handlers.onHover then [EMEvent.hoverEv o] else []
          | none => [])

/-- `EventManager.onPointerDown(event)`: on the nearest hit with
`onDragStart`, invoke it, set `dragging`, and fire the global
`onDragStart` if installed.  The method has no `onClick` branch. -/
def EventManager.onPointerDown (st : EventManager) (hits : List Obj) :
    EventManager × List EMEvent :=
  match hits with
  | [] => (st, [])
  | object :: _ =>
      match mapGet st.objectHandlers object with
      | some handlers =>
          if handlers.onDragStart then
            ({ st with dragging := some object },
              EMEvent.dragStartEv object ::
                (if st.globalOnDragStart then [EMEvent.globalDragStartEv] else []))
          else (st, [])
      | none => (st, [])

/-- `EventManager.onPointerUp(event)`: if dragging, invoke the dragged
object's `onDragEnd` when still mapped and present, then the global
`onDragEnd` when installed; in all cases clear `dragging`. -/
def EventManager.onPointerUp (st : EventManager) : EventManager × List EMEvent :=
  ({ st with dragging := none },
    match st.dragging with
    | some d =>
        (match mapGet st.objectHandlers d with
         | some handlers => if handlers.onDragEnd then [EMEvent.dragEndEv d] else []
         | none => []) ++
        (if st.globalOnDragEnd then [EMEvent.globalDragEndEv] else [])
    | none => [])

/-- The exported module function `handlePointerDown(pointer, raycaster,
camera, objectHandlers, event)`: on the nearest hit, `onDragStart` wins
and returns the object to drag; otherwise `onClick` fires once and null
is returned. -/
def handlePointerDown (objectHandlers : List (Obj × HandlerBundle)) (hits : List Obj) :
    Option Obj × List EMEvent :=
  match hits with
  | [] => (none, [])
  | object :: _ =>
      match mapGet objectHandlers object with
      | some handlers =>
          if handlers.onDragStart then (some object, [EMEvent.dragStartEv object])
          else if handlers.onClick then (none, [EMEvent.clickEv object])
          else (none, [])
      | none => (none, [])

/-- The exported module function `handlePointerMove(...)`: same branches as
`EventManager.onPointerMove`, with `dragging` passed explicitly. -/
def handlePointerMove (objectHandlers : List (Obj × HandlerBundle))
    (dragging : Option Obj) (hits : List Obj) : List EMEvent :=
  match dragging with
  | some d =>
      match mapGet objectHandlers d with
      | some handlers => if handlers.onDrag then [EMEvent.dragEv d] else []
      | none => []
  | none =>
      hits.flatMap fun o =>
        match mapGet objectHandlers o with
        | some handlers => if handlers.onHover then [EMEvent.hoverEv o] else []
        | none => []

/-- Handler bundle of an `enableDragging` registration: drag handlers
only. -/
def dragBundle : HandlerBundle :=
  { onHover := false, onClick := false, onDragStart := true
    onDrag := true, onDragEnd := true }

/-- Handler bundle exposing only `onClick`. -/
def clickBundle : HandlerBundle :=
  { onHover := false, onClick := true, onDragStart := false
    onDrag := false, onDragEnd := false }

/-- Handler bundle exposing only `onHover`. -/
def hoverBundle : HandlerBundle :=
  { onHover := true, onClick := false, onDragStart := false
    onDrag := false, onDragEnd := false }

/-- A state reached by registering object 0 with drag handlers and
pressing the pointer on it: object 0 is the Dragging payload. -/
def c1St : EventManager :=
  (EventManager.onPointerDown (EventManager.addObject EventManager.init 0 dragBundle) [0]).1

/-- C1 counterexample: in a reachable state where object 0 is the Dragging
payload, `removeObject(0)` does NOT clear the drag state to Idle: the
`dragging` field still holds object 0 afterwards. -/
theorem c1_counterexample :
    c1St.dragging = some 0 ∧ (EventManager.removeObject c1St 0).dragging ≠ none := by
  decide

/-- C1 (amended): `removeObject(obj)` while `obj` is the Dragging payload
only deletes `obj` from the handler map — it invokes no handler (its
trace is empty by definition) but leaves the Dragging payload in place;
the state returns to Idle at the next pointer-up, which no longer finds
handlers for `obj` and so does not invoke `obj`'s `onDragEnd`. -/
theorem removeObject_dragging_spec (st : EventManager) (o : Obj)
    (hdrag : st.dragging = some o) :
    (EventManager.removeObject st o).dragging = some o ∧
    mapGet (EventManager.removeObject st o).objectHandlers o = none ∧
    (EventManager.onPointerUp (EventManager.removeObject st o)).1.dragging = none ∧
    EMEvent.dragEndEv o ∉ (EventManager.onPointerUp (EventManager.removeObject st o)).2 := by
  refine ⟨hdrag, mapGet_mapDelete_self _ o, rfl, ?_⟩
  have h1 : mapGet (mapDelete st.objectHandlers o) o = none := mapGet_mapDelete_self _ o
  simp only [EventManager.onPointerUp, EventManager.removeObject, hdrag, h1]
  by_cases hg : st.globalOnDragEnd <;> simp [hg]

/-- Witness for C1 (amended) at the reachable dragging state `c1St`. -/
theorem removeObject_dragging_spec_witness :
    c1St.dragging = some 0 ∧
      ((EventManager.removeObject c1St 0).dragging = some 0 ∧
        mapGet (EventManager.removeObject c1St 0).objectHandlers 0 = none ∧
        (EventManager.onPointerUp (EventManager.removeObject c1St 0)).1.dragging = none ∧
        EMEvent.dragEndEv 0 ∉ (EventManager.onPointerUp (EventManager.removeObject c1St 0)).2) :=
  ⟨by decide, removeObject_dragging_spec c1St 0 (by decide)⟩

/-- One externally driven operation on an `EventManager`. -/
inductive EMOp where
  | pointerDown (hits : List Obj)
  | pointerMove (hits : List Obj)
  | pointerUp
  | removeOp (o : Obj)
  | addOp (o : Obj) (handlers : HandlerBundle)
deriving Repr

/-- State effect of one operation. -/
def EMOp.apply (st : EventManager) : EMOp → EventManager
  | EMOp.pointerDown hits => (EventManager.onPointerDown st hits).1
  | EMOp.pointerMove hits => (EventManager.onPointerMove st hits).1
  | EMOp.pointerUp => (EventManager.onPointerUp st).1
  | EMOp.removeOp o => EventManager.removeObject st o
  | EMOp.addOp o handlers => EventManager.addObject st o handlers

/-- Run a sequence of operations from a starting state. -/
def runOps (st : EventManager) (ops : List EMOp) : EventManager :=
  ops.foldl EMOp.apply st

/-- C4: in every state reachable from the constructor state by pointer-down,
pointer-move, pointer-up, removeObject (and addObject) operations, at most
one object is the Dragging payload: the single `dragging` field is either
null (Idle) or holds exactly one object. -/
theorem em_single_drag_invariant (ops : List EMOp) (a b : Obj)
    (ha : (runOps EventManager.init ops).dragging = some a)
    (hb : (runOps EventManager.init ops).dragging = some b) : a = b := by
  rw [ha] at hb
  exact Option.some.inj hb

/-- Witness for C4: after registering object 0 and pressing on it, the
payload is object 0 and the invariant instantiates. -/
theorem em_single_drag_invariant_witness :
    (runOps EventManager.init [EMOp.addOp 0 dragBundle, EMOp.pointerDown [0]]).dragging
        = some 0 ∧ 0 = 0 :=
  ⟨by decide,
   em_single_drag_invariant [EMOp.addOp 0 dragBundle, EMOp.pointerDown [0]] 0 0
     (by decide) (by decide)⟩

/-- C10: after pointer-up the drag state is Idle unconditionally, and when
the dragged object had been deregistered from the handler map mid-drag the
pointer-up invokes no per-object handler: its trace is exactly the global
`onDragEnd` when installed, nothing otherwise. -/
theorem onPointerUp_idle_spec (st : EventManager) (o : Obj) :
    (EventManager.onPointerUp st).1.dragging = none ∧
    (st.dragging = some o → mapGet st.objectHandlers o = none →
      (EventManager.onPointerUp st).2 =
        (if st.globalOnDragEnd then [EMEvent.globalDragEndEv] else [])) := by
  refine ⟨rfl, fun hdrag hnone => ?_⟩
  simp [EventManager.onPointerUp, hdrag, hnone]

/-- Witness for C10: a mid-drag state whose payload, object 5, is no
longer in the handler map, with a global onDragEnd installed. -/
theorem onPointerUp_idle_spec_witness :
    (EventManager.onPointerUp
        { objectHandlers := [], dragging := some 5
          globalOnDragStart := false, globalOnDragEnd := true }).1.dragging = none ∧
      (EventManager.onPointerUp
        { objectHandlers := [], dragging := some 5
          globalOnDragStart := false, globalOnDragEnd := true }).2
        = [EMEvent.globalDragEndEv] := by
  refine ⟨(onPointerUp_idle_spec _ 5).1, ?_⟩
  rw [(onPointerUp_idle_spec
    { objectHandlers := [], dragging := some 5
      globalOnDragStart := false, globalOnDragEnd := true } 5).2 rfl rfl]
  decide

theorem mem_hoverFlat (m : List (Obj × HandlerBundle)) (hits : List Obj) (o : Obj) :
    (EMEvent.hoverEv o ∈ hits.flatMap fun b =>
      match mapGet m b with
      | some hs => if hs.onHover then [EMEvent.hoverEv b] else []
      | none => []) ↔
      (o ∈ hits ∧ ∃ hs, mapGet m o = some hs ∧ hs.onHover = true) := by
  rw [List.mem_flatMap]
  constructor
  · rintro ⟨b, hb, hfb⟩
    rcases hg : mapGet m b with _ | hs
    · simp only [hg] at hfb; simp at hfb
    · simp only [hg] at hfb
      by_cases hh : hs.onHover = true
      · rw [if_pos hh] at hfb
        have hob : o = b := by simpa using hfb
        subst hob
        exact ⟨hb, hs, hg, hh⟩
      · rw [if_neg hh] at hfb; simp at hfb
  · rintro ⟨ho, hs, hg, hh⟩
    exact ⟨o, ho, by simp [hg, hh]⟩

theorem dragEv_not_mem_hoverFlat (m : List (Obj × HandlerBundle)) (hits : List Obj)
    (o : Obj) :
    EMEvent.dragEv o ∉ hits.flatMap fun b =>
      match mapGet m b with
      | some hs => if hs.onHover then [EMEvent.hoverEv b] else []
      | none => [] := by
  rw [List.mem_flatMap]
  rintro ⟨b, hb, hfb⟩
  rcases hg : mapGet m b with _ | hs
  · simp only [hg] at hfb; simp at hfb
  · simp only [hg] at hfb
    by_cases hh : hs.onHover = true
    · rw [if_pos hh] at hfb; simp at hfb
    · rw [if_neg hh] at hfb; simp at hfb

/-- Idle two-object state in which both objects expose `onHover`. -/
def c8St : EventManager :=
  { objectHandlers := [(0, hoverBundle), (1, hoverBundle)], dragging := none
    globalOnDragStart := false, globalOnDragEnd := false }

/-- C8 counterexample: with two ray hits, nearest first, the pointer-move
invokes `onHover` for the farther hit (object 1) as well — not only for
the nearest hit object. -/
theorem c8_counterexample :
    (EventManager.onPointerMove c8St [0, 1]).2
        = [EMEvent.hoverEv 0, EMEvent.hoverEv 1] ∧
      EMEvent.hoverEv 1 ∈ (EventManager.onPointerMove c8St [0, 1]).2 := by
  decide

/-- C8 (amended): a pointer-move delivered while the drag state is Idle
leaves the whole state (hence the drag state) unchanged, invokes `onHover`
for EVERY hit object whose bundle has it — not only for the nearest — and
invokes no drag handler. -/
theorem onPointerMove_idle_spec (st : EventManager) (hits : List Obj) (o : Obj)
    (hidle : st.dragging = none) :
    (EventManager.onPointerMove st hits).1 = st ∧
    (EMEvent.hoverEv o ∈ (EventManager.onPointerMove st hits).2 ↔
      (o ∈ hits ∧ ∃ hs, mapGet st.objectHandlers o = some hs ∧ hs.onHover = true)) ∧
    EMEvent.dragEv o ∉ (EventManager.onPointerMove st hits).2 := by
  have hred : EventManager.onPointerMove st hits =
      (st, hits.flatMap fun b =>
        match mapGet st.objectHandlers b with
        | some hs => if hs.onHover then [EMEvent.hoverEv b] else []
        | none => []) := by
    unfold EventManager.onPointerMove
    rw [hidle]
  rw [hred]
  exact ⟨rfl, mem_hoverFlat st.objectHandlers hits o,
    dragEv_not_mem_hoverFlat st.objectHandlers hits o⟩

/-- Witness for C8 (amended): at `c8St` with hits [0, 1], the state is
unchanged and the farther object's hover fires. -/
theorem onPointerMove_idle_spec_witness :
    (EventManager.onPointerMove c8St [0, 1]).1 = c8St ∧
      EMEvent.hoverEv 1 ∈ (EventManager.onPointerMove c8St [0, 1]).2 :=
  ⟨(onPointerMove_idle_spec c8St [0, 1] 1 (by decide)).1,
   (onPointerMove_idle_spec c8St [0, 1] 1 (by decide)).2.1.mpr
     ⟨by decide, hoverBundle, by decide, by decide⟩⟩

/-- Idle one-object state whose object exposes only `onClick`. -/
def c3St : EventManager :=
  { objectHandlers := [(0, clickBundle)], dragging := none
    globalOnDragStart := false, globalOnDragEnd := false }

/-- C3 counterexample: the nearest (only) hit exposes `onClick` and no
`onDragStart`, yet the class method `EventManager.onPointerDown` — the one
wired to the DOM pointer-down event — invokes nothing at all: `onClick`
does not fire even once. -/
theorem c3_counterexample :
    (mapGet c3St.objectHandlers 0 = some clickBundle ∧
      clickBundle.onClick = true ∧ clickBundle.onDragStart = false) ∧
    (EventManager.onPointerDown c3St [0]).2 = [] ∧
    EMEvent.clickEv 0 ∉ (EventManager.onPointerDown c3St [0]).2 := by
  decide

/-- C3 (amended): when the nearest hit's bundle has `onClick` but no
`onDragStart`: the exported `handlePointerDown` invokes `onClick` exactly
once and returns null (no drag entered), while the class method
`EventManager.onPointerDown` invokes no handler and keeps its state; in
both paths the drag state stays Idle, and a subsequent pointer-move while
Idle invokes no drag handler (the only handlers whose bodies write object
positions, `event.js` lines 142-157) and leaves the manager state
unchanged, so no object's position is altered. -/
theorem pointerDown_click_spec (st : EventManager) (o : Obj) (hs : HandlerBundle)
    (rest hits2 : List Obj)
    (hidle : st.dragging = none)
    (hget : mapGet st.objectHandlers o = some hs)
    (hclick : hs.onClick = true) (hnostart : hs.onDragStart = false) :
    handlePointerDown st.objectHandlers (o :: rest) = (none, [EMEvent.clickEv o]) ∧
    EventManager.onPointerDown st (o :: rest) = (st, []) ∧
    EMEvent.dragEv o ∉ handlePointerMove st.objectHandlers none hits2 ∧
    (EventManager.onPointerMove st hits2).1 = st := by
  refine ⟨?_, ?_, ?_, ?_⟩
  · simp [handlePointerDown, hget, hclick, hnostart]
  · simp [EventManager.onPointerDown, hget, hnostart]
  · exact dragEv_not_mem_hoverFlat st.objectHandlers hits2 o
  · simp [EventManager.onPointerMove, hidle]

/-- Witness for C3 (amended) at the concrete Idle click-only state. -/
theorem pointerDown_click_spec_witness :
    handlePointerDown c3St.objectHandlers [0] = (none, [EMEvent.clickEv 0]) ∧
      EventManager.onPointerDown c3St [0] = (c3St, []) :=
  ⟨(pointerDown_click_spec c3St 0 clickBundle [] [0]
      (by decide) (by decide) (by decide) (by decide)).1,
   (pointerDown_click_spec c3St 0 clickBundle [] [0]
      (by decide) (by decide) (by decide) (by decide)).2.1⟩

/-! ## Entity registry (`src/lib/3D/entity.js`)

A registry maps a type name to a creation strategy: a factory function
(`typeof config === 'function'`) or a declarative template object.
Configuration objects carry the fields destructured by
`createFromConfig`; a missing JavaScript field is `none`.  Geometry and
material construction is kept symbolic (the `THREE` constructor
arguments), and JavaScript errors become `Except.error`: the explicit
`throw`s plus the `TypeError` raised by reading `geometry.radius` (or
`.width`) off an absent `geometry` object. -/

/-- Fields read off `mergedConfig.geometry` by the two geometry cases. -/
structure GeomObj where
  radius : Option Int
  widthSegments : Option Int
  heightSegments : Option Int
  width : Option Int
  height : Option Int
  depth : Option Int
deriving DecidableEq, Repr

/-- A position object `{x, y, z}`. -/
structure Pos3 where
  x : Int
  y : Int
  z : Int
deriving DecidableEq, Repr

/-- A configuration (template or params) object as destructured by
`createFromConfig`. -/
structure EntityConfig where
  type : Option String
  geometry : Option GeomObj
  material : Option Nat
  position : Option Pos3
  scale : Option Int
deriving DecidableEq, Repr

/-- The geometry the created mesh is built with. -/
inductive Geometry where
  | sphereGeom (radius widthSegments heightSegments : Option Int)
  | boxGeom (width height depth : Option Int)
deriving DecidableEq, Repr

/-- The created `THREE.Mesh`: geometry, material payload, then the applied
`position.set(x, y, z)` and `scale.set(scale, scale, scale)`. -/
structure MeshInst where
  geom : Geometry
  material : Option Nat
  posx : Int
  posy : Int
  posz : Int
  scalex : Int
  scaley : Int
  scalez : Int
deriving DecidableEq, Repr

/-- The errors this module can raise: the three thrown `Error`s plus the
JavaScript `TypeError` from reading a property of `undefined`. -/
inductive EntityErr where
  | duplicateType
  | unknownType (t : String)
  | unknownGeometryKind (t : Option String)
  | undefinedAccess
deriving DecidableEq, Repr

/-- A registered creation strategy: factory function or template object. -/
inductive CreationStrategy where
  | factory (f : EntityConfig → MeshInst)
  | template (config : EntityConfig)

/-- The registry: a `Map` from type name to strategy. -/
abbrev EntityRegistry := List (String × CreationStrategy)

/-- `createEntityRegistry()`: a fresh empty `Map`. -/
def createEntityRegistry : EntityRegistry := []

/-- The JavaScript spread `{...config, ...params}`: each top-level field
present in `params` replaces the template's field wholesale. -/
def spreadMerge (config params : EntityConfig) : EntityConfig :=
  { type := match params.type with
      | some v => some v
      | none => config.type
    geometry := match params.geometry with
      | some v => some v
      | none => config.geometry
    material := match params.material with
      | some v => some v
      | none => config.material
    position := match params.position with
      | some v => some v
      | none => config.position
    scale := match params.scale with
      | some v => some v
      | none => config.scale }

/-- Deep merge as the specification describes it, for comparison with the
source's `spreadMerge`: fields of the nested geometry object not
mentioned in `params` are preserved from the template. -/
def deepMergeSpec (config params : EntityConfig) : EntityConfig :=
  { spreadMerge config params with
    geometry := match config.geometry, params.geometry with
      | some g, some p =>
          some { radius := match p.radius with
                   | some v => some v
                   | none => g.radius
                 widthSegments := match p.widthSegments with
                   | some v => some v
                   | none => g.widthSegments
                 heightSegments := match p.heightSegments with
                   | some v => some v
                   | none => g.heightSegments
                 width := match p.width with
                   | some v => some v
                   | none => g.width
                 height := match p.height with
                   | some v => some v
                   | none => g.height
                 depth := match p.depth with
                   | some v => some v
                   | none => g.depth }
      | some g, none => some g
      | none, gp => gp }

/-- `registerEntity({registry, type, config})`: throw `DuplicateType` when
the type is present (leaving the registry untouched), else insert. -/
def registerEntity (registry : EntityRegistry) (type : String)
    (strategy : CreationStrategy) : Except EntityErr Unit × EntityRegistry :=
  if (mapGet registry type).isSome then
    (Except.error EntityErr.duplicateType, registry)
  else
    (Except.ok (), mapSet registry type strategy)

/-- `getEntityConfig({registry, type})`: throw `UnknownType` when absent. -/
def getEntityConfig (registry : EntityRegistry) (type : String) :
    Except EntityErr CreationStrategy :=
  match mapGet registry type with
  | none => Except.error (EntityErr.unknownType type)
  | some config => Except.ok config

/-- `createFromConfig({config, params})`: spread-merge, destructure with
defaults (origin position, scale 1), switch on the declared kind. -/
def createFromConfig (config params : EntityConfig) : Except EntityErr MeshInst :=
  let mergedConfig := spreadMerge config params
  let position := mergedConfig.position.getD { x := 0, y := 0, z := 0 }
  let scale := mergedConfig.scale.getD 1
  match mergedConfig.type with
  | some t =>
      if t = "sphere" then
        match mergedConfig.geometry with
        | some geometry =>
            Except.ok
              { geom := Geometry.sphereGeom geometry.radius geometry.widthSegments
                  geometry.heightSegments
                material := mergedConfig.material
                posx := position.x, posy := position.y, posz := position.z
                scalex := scale, scaley := scale, scalez := scale }
        | none => Except.error EntityErr.undefinedAccess
      else if t = "box" then
        match mergedConfig.geometry with
        | some geometry =>
            Except.ok
              { geom := Geometry.boxGeom geometry.width geometry.height geometry.depth
                material := mergedConfig.material
                posx := position.x, posy := position.y, posz := position.z
                scalex := scale, scaley := scale, scalez := scale }
        | none => Except.error EntityErr.undefinedAccess
      else Except.error (EntityErr.unknownGeometryKind (some t))
  | none => Except.error (EntityErr.unknownGeometryKind none)

/-- `createEntity({registry, type, params})`: look the strategy up; call a
factory with `params`, else build from the template. -/
def createEntity (registry : EntityRegistry) (type : String)
    (params : EntityConfig) : Except EntityErr MeshInst :=
  match getEntityConfig registry type with
  | Except.error e => Except.error e
  | Except.ok (CreationStrategy.factory f) => Except.ok (f params)
  | Except.ok (CreationStrategy.template config) => createFromConfig config params

/-- C6: `registerEntity` fails with `DuplicateType` exactly when the type
is already registered, and on that failure the registry is unchanged, so
the original registration for the type remains in effect. -/
theorem registerEntity_spec (registry : EntityRegistry) (type : String)
    (strategy : CreationStrategy) :
    ((registerEntity registry type strategy).1
        = Except.error EntityErr.duplicateType ↔
      (mapGet registry type).isSome = true) ∧
    ((mapGet registry type).isSome = true →
      (registerEntity registry type strategy).2 = registry) := by
  unfold registerEntity
  by_cases h : (mapGet registry type).isSome = true
  · simp [h]
  · simp [h]

def exCfgDup : EntityConfig :=
  { type := some "box", geometry := none, material := none
    position := none, scale := none }

def exRegDup : EntityRegistry := [("crate", CreationStrategy.template exCfgDup)]

/-- Witness for C6: re-registering "crate" fails with DuplicateType and
leaves the one-entry registry as it was. -/
theorem registerEntity_spec_witness :
    (registerEntity exRegDup "crate" (CreationStrategy.template exCfgDup)).1
        = Except.error EntityErr.duplicateType ∧
      (registerEntity exRegDup "crate" (CreationStrategy.template exCfgDup)).2
        = exRegDup :=
  ⟨(registerEntity_spec exRegDup "crate" (CreationStrategy.template exCfgDup)).1.mpr rfl,
   (registerEntity_spec exRegDup "crate" (CreationStrategy.template exCfgDup)).2 rfl⟩

theorem createFromConfig_errs (config params : EntityConfig) :
    ((spreadMerge config params).type ≠ some "sphere" →
      (spreadMerge config params).type ≠ some "box" →
      createFromConfig config params
        = Except.error (EntityErr.unknownGeometryKind (spreadMerge config params).type)) ∧
    (∀ g, (spreadMerge config params).geometry = some g →
      ((spreadMerge config params).type = some "sphere" ∨
        (spreadMerge config params).type = some "box") →
      ∃ m, createFromConfig config params = Except.ok m) ∧
    ((spreadMerge config params).geometry = none →
      ((spreadMerge config params).type = some "sphere" ∨
        (spreadMerge config params).type = some "box") →
      createFromConfig config params = Except.error EntityErr.undefinedAccess) ∧
    (∀ t, createFromConfig config params ≠ Except.error (EntityErr.unknownType t)) := by
  refine ⟨?_, ?_, ?_, ?_⟩
  · intro hns hnb
    simp only [createFromConfig]
    rcases htype : (spreadMerge config params).type with _ | t
    · rfl
    · have hts : ¬ t = "sphere" := fun hc => hns (by rw [htype, hc])
      have htb : ¬ t = "box" := fun hc => hnb (by rw [htype, hc])
      simp [hts, htb]
  · intro g hg hor
    rcases hor with hs | hb
    · simp [createFromConfig, hs, hg]
    · simp [createFromConfig, hb, hg]
  · intro hg hor
    rcases hor with hs | hb
    · simp [createFromConfig, hs, hg]
    · simp [createFromConfig, hb, hg]
  · intro t
    simp only [createFromConfig]
    split
    · split
      · split <;> simp
      · split
        · split <;> simp
        · simp
    · simp

/-- A params object with no fields. -/
def emptyConfig : EntityConfig :=
  { type := none, geometry := none, material := none
    position := none, scale := none }

/-- C7 (amended): `createEntity` fails with `UnknownType` exactly when the
type is unregistered (a registered type can never produce that error);
for a Template strategy, it fails with `UnknownGeometryKind` exactly when
the merged declared kind is neither "sphere" nor "box"; with a recognized
kind it returns an instance when the merged configuration carries a
geometry object, but raises the property-access `TypeError` when the
geometry object is missing; a Factory strategy returns the factory's
instance. -/
theorem createEntity_err_spec (registry : EntityRegistry) (type : String)
    (params : EntityConfig) :
    (mapGet registry type = none →
      createEntity registry type params = Except.error (EntityErr.unknownType type)) ∧
    (∀ f, mapGet registry type = some (CreationStrategy.factory f) →
      createEntity registry type params = Except.ok (f params)) ∧
    (∀ config, mapGet registry type = some (CreationStrategy.template config) →
      ((spreadMerge config params).type ≠ some "sphere" →
        (spreadMerge config params).type ≠ some "box" →
        createEntity registry type params
          = Except.error (EntityErr.unknownGeometryKind (spreadMerge config params).type)) ∧
      (∀ g, (spreadMerge config params).geometry = some g →
        ((spreadMerge config params).type = some "sphere" ∨
          (spreadMerge config params).type = some "box") →
        ∃ m, createEntity registry type params = Except.ok m) ∧
      ((spreadMerge config params).geometry = none →
        ((spreadMerge config params).type = some "sphere" ∨
          (spreadMerge config params).type = some "box") →
        createEntity registry type params = Except.error EntityErr.undefinedAccess) ∧
      (∀ t, createEntity registry type params
          ≠ Except.error (EntityErr.unknownType t))) := by
  refine ⟨?_, ?_, ?_⟩
  · intro h; simp [createEntity, getEntityConfig, h]
  · intro f hf; simp [createEntity, getEntityConfig, hf]
  · intro config hc
    have hce : createEntity registry type params = createFromConfig config params := by
      simp [createEntity, getEntityConfig, hc]
    rw [hce]
    exact createFromConfig_errs config params

/-- Witness for C7 at a concrete input: the empty registry fails with
UnknownType on lookup of "ghost". -/
theorem createEntity_err_spec_witness :
    mapGet createEntityRegistry "ghost" = none ∧
      createEntity createEntityRegistry "ghost" emptyConfig
        = Except.error (EntityErr.unknownType "ghost") :=
  ⟨rfl, (createEntity_err_spec createEntityRegistry "ghost" emptyConfig).1 rfl⟩

/-- A sphere template that carries no geometry object. -/
def c7Cfg : EntityConfig :=
  { type := some "sphere", geometry := none, material := none
    position := none, scale := none }

def c7Reg : EntityRegistry := [("orb", CreationStrategy.template c7Cfg)]

/-- C7 counterexample: "orb" is registered (so no UnknownType) as a
template whose merged kind is "sphere" (so no UnknownGeometryKind), yet
`createEntity` does not return an instance: it raises the property-access
error of reading `geometry.radius` off the absent geometry object. -/
theorem c7_counterexample :
    mapGet c7Reg "orb" = some (CreationStrategy.template c7Cfg) ∧
      (spreadMerge c7Cfg emptyConfig).type = some "sphere" ∧
      createEntity c7Reg "orb" emptyConfig = Except.error EntityErr.undefinedAccess :=
  ⟨rfl, rfl, rfl⟩

theorem createFromConfig_fields (config params : EntityConfig) (m : MeshInst)
    (hok : createFromConfig config params = Except.ok m) :
    m.posx = ((spreadMerge config params).position.getD ⟨0, 0, 0⟩).x ∧
    m.posy = ((spreadMerge config params).position.getD ⟨0, 0, 0⟩).y ∧
    m.posz = ((spreadMerge config params).position.getD ⟨0, 0, 0⟩).z ∧
    m.scalex = (spreadMerge config params).scale.getD 1 ∧
    m.scaley = (spreadMerge config params).scale.getD 1 ∧
    m.scalez = (spreadMerge config params).scale.getD 1 := by
  simp only [createFromConfig] at hok
  split at hok
  · split at hok
    · split at hok
      · injection hok with h
        subst h
        exact ⟨rfl, rfl, rfl, rfl, rfl, rfl⟩
      · simp at hok
    · split at hok
      · split at hok
        · injection hok with h
          subst h
          exact ⟨rfl, rfl, rfl, rfl, rfl, rfl⟩
        · simp at hok
      · simp at hok
  · simp at hok

/-- C5 (amended): `createEntity` on a Template strategy shallow-merges
`params` over the template: each top-level field present in `params`
replaces the template's field wholesale and each absent one is preserved
(nested fields inside an overridden `geometry` are not preserved, see the
counterexample); the instance gets the merged position (default origin)
and the merged uniform scale (default 1). -/
theorem createEntity_template_merge_spec (registry : EntityRegistry) (type : String)
    (config params : EntityConfig) (m : MeshInst)
    (hreg : mapGet registry type = some (CreationStrategy.template config))
    (hok : createEntity registry type params = Except.ok m) :
    (params.type = none → (spreadMerge config params).type = config.type) ∧
    (params.geometry = none → (spreadMerge config params).geometry = config.geometry) ∧
    (params.material = none → (spreadMerge config params).material = config.material) ∧
    (params.position = none → (spreadMerge config params).position = config.position) ∧
    (params.scale = none → (spreadMerge config params).scale = config.scale) ∧
    (m.posx = ((spreadMerge config params).position.getD ⟨0, 0, 0⟩).x ∧
      m.posy = ((spreadMerge config params).position.getD ⟨0, 0, 0⟩).y ∧
      m.posz = ((spreadMerge config params).position.getD ⟨0, 0, 0⟩).z ∧
      m.scalex = (spreadMerge config params).scale.getD 1 ∧
      m.scaley = (spreadMerge config params).scale.getD 1 ∧
      m.scalez = (spreadMerge config params).scale.getD 1) := by
  have hok2 : createFromConfig config params = Except.ok m := by
    rw [← hok]; simp [createEntity, getEntityConfig, hreg]
  exact ⟨fun h => by simp [spreadMerge, h], fun h => by simp [spreadMerge, h],
    fun h => by simp [spreadMerge, h], fun h => by simp [spreadMerge, h],
    fun h => by simp [spreadMerge, h], createFromConfig_fields config params m hok2⟩

/-- A sphere template with a fully populated nested geometry object. -/
def c5Tmpl : EntityConfig :=
  { type := some "sphere"
    geometry := some { radius := some 1, widthSegments := some 32, heightSegments := some 16
                       width := none, height := none, depth := none }
    material := none, position := none, scale := none }

/-- Params overriding only the nested radius of the geometry. -/
def c5Params : EntityConfig :=
  { type := none
    geometry := some { radius := some 2, widthSegments := none, heightSegments := none
                       width := none, height := none, depth := none }
    material := none, position := none, scale := none }

/-- C5 counterexample: the template's nested `geometry.widthSegments`
(present, 32) is not mentioned in `params`, yet the source's spread merge
drops it (the params geometry object replaces the template's wholesale),
so the merged configuration differs from the spec's deep merge and the
created sphere is built without the template's segment counts. -/
theorem c5_counterexample :
    c5Tmpl.geometry.map GeomObj.widthSegments = some (some 32) ∧
      c5Params.geometry.map GeomObj.widthSegments = some none ∧
      (spreadMerge c5Tmpl c5Params).geometry.map GeomObj.widthSegments = some none ∧
      spreadMerge c5Tmpl c5Params ≠ deepMergeSpec c5Tmpl c5Params ∧
      (deepMergeSpec c5Tmpl c5Params).geometry.map GeomObj.widthSegments
        = some (some 32) ∧
      createFromConfig c5Tmpl c5Params
        = Except.ok { geom := Geometry.sphereGeom (some 2) none none, material := none
                      posx := 0, posy := 0, posz := 0
                      scalex := 1, scaley := 1, scalez := 1 } :=
  ⟨by decide, by decide, by decide, by decide, by decide, rfl⟩

/-- A box template exercising position and scale application. -/
def c5WCfg : EntityConfig :=
  { type := some "box"
    geometry := some { radius := none, widthSegments := none, heightSegments := none
                       width := some 2, height := some 3, depth := some 4 }
    material := some 1, position := some ⟨1, 2, 3⟩, scale := some 5 }

def c5WReg : EntityRegistry := [("pallet", CreationStrategy.template c5WCfg)]

/-- The mesh `createEntity` builds from `c5WCfg` with empty params. -/
def c5WMesh : MeshInst :=
  { geom := Geometry.boxGeom (some 2) (some 3) (some 4), material := some 1
    posx := 1, posy := 2, posz := 3, scalex := 5, scaley := 5, scalez := 5 }

/-- Witness for C5 (amended) at a concrete template and empty params. -/
theorem createEntity_template_merge_spec_witness :
    createEntity c5WReg "pallet" emptyConfig = Except.ok c5WMesh ∧
      (spreadMerge c5WCfg emptyConfig).scale = c5WCfg.scale ∧
      c5WMesh.posx = ((spreadMerge c5WCfg emptyConfig).position.getD ⟨0, 0, 0⟩).x ∧
      c5WMesh.scalex = (spreadMerge c5WCfg emptyConfig).scale.getD 1 := by
  have h := createEntity_template_merge_spec c5WReg "pallet" c5WCfg emptyConfig c5WMesh
    rfl rfl
  exact ⟨rfl, h.2.2.2.2.1 rfl, h.2.2.2.2.2.1, h.2.2.2.2.2.2.2.2.1⟩
